import Mathlib

/-!
Verification of the AnimeHindiAPI repository (src/app.py, src/video.py).

The repository scrapes animedekho.co for a video URL: it derives slugs from
an anime title, enumerates candidate page URLs, drives a headless browser
over them while observing network requests for a fixed video-host pattern,
and exposes the result over a small Flask API.

The embedding below models the pure string pipeline character-by-character
(Python `str` operations and the regexes restricted to their ASCII/Latin-1
fragment, which is the fragment all theorems quantify over), and models the
browser as an environment mapping each navigated URL to the list of network
request URLs observed while that page loads.
-/

namespace AnimeHindi

/-- Latin-1 fragment of Python's whitespace class: the characters below
U+0100 accepted by `str.isspace()` / matched by the regex class `\s`
(space, tab, newline, carriage return, vertical tab, form feed, the
file/group/record/unit separators, next line, and no-break space).
Whitespace code points above U+00FF are not modelled. -/
def pyIsSpace (c : Char) : Bool :=
  c == ' ' || c == '\t' || c == '\n' || c == '\r' || c == '\x0b' || c == '\x0c' ||
  c == '\x1c' || c == '\x1d' || c == '\x1e' || c == '\x1f' || c == '\x85' || c == '\xa0'

/-- ASCII fragment of the regex class `\w` (Python default Unicode mode):
letters, digits, underscore. Non-ASCII word characters are not modelled. -/
def pyIsWord (c : Char) : Bool :=
  c.isAlphanum || c == '_'

/-- Python `str.strip()` with no argument: remove leading and trailing
whitespace. `List.rdropWhile` removes from the right end. -/
def pyStrip (l : List Char) : List Char :=
  (l.dropWhile pyIsSpace).rdropWhile pyIsSpace

/-- Python `str.strip(x)` for a one-character argument `x`: remove leading
and trailing occurrences of `x` (models `base.strip("-")`). -/
def stripChar (x : Char) (l : List Char) : List Char :=
  (l.dropWhile (· == x)).rdropWhile (· == x)

/-- Worker for `collapseRuns`: the flag records whether the previous
character was part of a run of the class being replaced (in which case the
replacement has already been emitted for that run). -/
def collapseRunsAux (p : Char → Bool) (rep : Char) : Bool → List Char → List Char
  | _, [] => []
  | inRun, c :: cs =>
    if p c then (if inRun then collapseRunsAux p rep true cs
                 else rep :: collapseRunsAux p rep true cs)
    else c :: collapseRunsAux p rep false cs

/-- Model of `re.sub` with a pattern of the shape `C+` for a character
class `C` and a one-character replacement: every maximal run of characters
satisfying `p` is replaced by the single character `rep`. -/
def collapseRuns (p : Char → Bool) (rep : Char) (l : List Char) : List Char :=
  collapseRunsAux p rep false l

/-- UTF-8 encoding of a Unicode scalar value, as the list of its byte values
(used by `urllib.parse.quote_plus`, which percent-encodes UTF-8 bytes). -/
def utf8Bytes (c : Char) : List Nat :=
  let n := c.toNat
  if n < 0x80 then [n]
  else if n < 0x800 then [0xC0 + n / 64, 0x80 + n % 64]
  else if n < 0x10000 then [0xE0 + n / 4096, 0x80 + n / 64 % 64, 0x80 + n % 64]
  else [0xF0 + n / 262144, 0x80 + n / 4096 % 64, 0x80 + n / 64 % 64, 0x80 + n % 64]

/-- Uppercase hexadecimal digit for a value below 16. -/
def hexUpper (n : Nat) : Char :=
  if n < 10 then Char.ofNat (48 + n) else Char.ofNat (55 + n)

/-- Percent-encoding `%XX` of one byte, uppercase hex, as in `urllib.parse.quote`. -/
def percentEncodeByte (b : Nat) : List Char :=
  ['%', hexUpper (b / 16), hexUpper (b % 16)]

/-- Characters `urllib.parse.quote` never escapes: ASCII letters, digits,
and `_ . - ~` (the module-level `_ALWAYS_SAFE` set, with the default empty
`safe` argument used by `quote_plus`). -/
def isAlwaysSafe (c : Char) : Bool :=
  c.isAlphanum || c == '_' || c == '.' || c == '-' || c == '~'

/-- Per-character action of `urllib.parse.quote_plus` with default
arguments: a space becomes `+`, an always-safe character is kept, anything
else is percent-encoded byte-by-byte from its UTF-8 encoding. -/
def quotePlusChar (c : Char) : List Char :=
  if c == ' ' then ['+']
  else if isAlwaysSafe c then [c]
  else (utf8Bytes c).flatMap percentEncodeByte

/-- Python `urllib.parse.quote_plus(s)` with default arguments. -/
def quote_plus (l : List Char) : List Char :=
  l.flatMap quotePlusChar

/-- Character-level slug normalization shared by `make_slugs` in
src/app.py lines 19-24 and src/video.py lines 16-21:
strip, lowercase (ASCII fragment of `str.lower()`, which is exact on the
inputs the theorems quantify over), delete characters outside `[\w\s-]`,
replace whitespace runs by `-`, collapse hyphen runs, strip hyphens. -/
def slugBase (l : List Char) : List Char :=
  let b1 := (pyStrip l).map Char.toLower
  let b2 := b1.filter (fun c => pyIsWord c || pyIsSpace c || c == '-')
  let b3 := collapseRuns pyIsSpace '-' b2
  let b4 := collapseRuns (· == '-') '-' b3
  stripChar '-' b4

end AnimeHindi

namespace AnimeHindi.AppPy

/-- Model of `make_slugs` in src/app.py lines 17-25: the hyphenated slug and
its `urllib.parse.quote_plus` form. -/
def make_slugs (animetitle : String) : List String :=
  [(slugBase animetitle.toList).asString, (quote_plus (slugBase animetitle.toList)).asString]

/-- Model of `make_candidate_urls` in src/app.py lines 27-34. -/
def make_candidate_urls (slug season episode : String) : List String :=
  [ "https://animedekho.co/epi/" ++ slug ++ "-" ++ season ++ "x" ++ episode ++ "/",
    "https://animedekho.co/episodes/" ++ slug ++ "-" ++ season ++ "x" ++ episode ++ "/",
    "https://animedekho.co/epi/" ++ slug ++ "/" ++ season ++ "x" ++ episode ++ "/",
    "https://animedekho.co/episodes/" ++ slug ++ "/" ++ season ++ "x" ++ episode ++ "/" ]

end AnimeHindi.AppPy

namespace AnimeHindi.VideoPy

/-- Model of `make_slugs` in src/video.py lines 14-22 (textually identical
to the copy in src/app.py). -/
def make_slugs (animetitle : String) : List String :=
  [(slugBase animetitle.toList).asString, (quote_plus (slugBase animetitle.toList)).asString]

/-- Model of `make_candidate_urls` in src/video.py lines 24-31 (textually
identical to the copy in src/app.py). -/
def make_candidate_urls (slug season episode : String) : List String :=
  [ "https://animedekho.co/epi/" ++ slug ++ "-" ++ season ++ "x" ++ episode ++ "/",
    "https://animedekho.co/episodes/" ++ slug ++ "-" ++ season ++ "x" ++ episode ++ "/",
    "https://animedekho.co/epi/" ++ slug ++ "/" ++ season ++ "x" ++ episode ++ "/",
    "https://animedekho.co/episodes/" ++ slug ++ "/" ++ season ++ "x" ++ episode ++ "/" ]

end AnimeHindi.VideoPy

namespace AnimeHindi

example : AppPy.make_slugs "Shinchan!! 2024" = ["shinchan-2024", "shinchan-2024"] := by decide

example : AppPy.make_slugs "One  Piece" = ["one-piece", "one-piece"] := by decide

/-- Literal part of the `VIDEO_RE` regex shared by src/app.py line 15 and
src/video.py line 12: `https://play\.zephyrflick\.top/video/` (the escaped
dots are literal dots). -/
def VIDEO_PAT : List Char := "https://play.zephyrflick.top/video/".toList

/-- The character class `[A-Za-z0-9\-_]` of `VIDEO_RE` (invariant under
`re.IGNORECASE`). -/
def isVideoIdChar (c : Char) : Bool :=
  ('A' ≤ c && c ≤ 'Z') || ('a' ≤ c && c ≤ 'z') || ('0' ≤ c && c ≤ '9') || c == '-' || c == '_'

/-- Case-insensitive literal match at the front of the input (ASCII case
folding, exact for the all-ASCII literal of `VIDEO_RE` under
`re.IGNORECASE`). On success returns the consumed input characters in
their original case (what `match.group(0)` reports) and the rest. -/
def matchLitCI : List Char → List Char → Option (List Char × List Char)
  | [], cs => some ([], cs)
  | _ :: _, [] => none
  | p :: ps, c :: cs =>
    if c.toLower == p.toLower then
      match matchLitCI ps cs with
      | some (cons, rest) => some (c :: cons, rest)
      | none => none
    else none

/-- Attempt of `VIDEO_RE` at one position: the literal followed by a
greedy, non-empty run of class characters; returns `group(0)`. -/
def matchVideoAt (cs : List Char) : Option (List Char) :=
  match matchLitCI VIDEO_PAT cs with
  | none => none
  | some (cons, rest) =>
    let run := rest.takeWhile isVideoIdChar
    if run.isEmpty then none else some (cons ++ run)

/-- Model of `VIDEO_RE.search`: try the pattern at each position left to
right, returning the leftmost match. -/
def searchVideo : List Char → Option (List Char)
  | [] => none
  | c :: cs =>
    match matchVideoAt (c :: cs) with
    | some m => some m
    | none => searchVideo cs

/-- String-level `VIDEO_RE.search(url)` returning `match.group(0)`. -/
def videoSearch (url : String) : Option String :=
  (searchVideo url.toList).map List.asString

example : videoSearch "https://play.zephyrflick.top/video/abc123" =
    some "https://play.zephyrflick.top/video/abc123" := by decide

example : videoSearch "x HTTPS://PLAY.ZEPHYRFLICK.TOP/video/a-b_9?t=1" =
    some "HTTPS://PLAY.ZEPHYRFLICK.TOP/video/a-b_9" := by decide

example : videoSearch "https://play.zephyrflick.top/video/" = none := by decide

example : videoSearch "https://example.com/a" = none := by decide

/-- One observed network request processed by the `on_request` callback of
src/app.py lines 63-70 / src/video.py lines 59-66: once `found` is set the
listener has removed itself, so further requests are ignored; otherwise
`found` becomes the regex match on the request URL, if any. -/
def observeRequest (found : Option String) (url : String) : Option String :=
  match found with
  | some m => some m
  | none => videoSearch url

/-- All network requests observed while one candidate page loads, folded
through the listener. -/
def observeRequests (found : Option String) (reqs : List String) : Option String :=
  reqs.foldl observeRequest found

/-- The candidate loop of src/app.py lines 75-84 / src/video.py lines
71-80, parameterized by the environment `env` mapping each navigated URL to
the network request URLs the page fires. Returns the final `found` value
and the list of candidates actually navigated to (`page.goto` calls), in
order. Per-candidate navigation failures are swallowed by the inner
`try/except` and do not affect `found` or the iteration, so they need no
separate modelling. -/
def scanCandidates (env : String → List String) :
    List String → Option String → Option String × List String
  | [], found => (found, [])
  | url :: rest, found =>
    if found.isSome then (found, [])
    else
      let found2 := observeRequests found (env url)
      let r := scanCandidates env rest found2
      (r.1, url :: r.2)

/-- Final `found` value of a whole scan started with `found = None`. -/
def scanFound (env : String → List String) (cands : List String) : Option String :=
  (scanCandidates env cands none).1

/-- Candidates navigated to during a whole scan started with `found = None`. -/
def scanVisited (env : String → List String) (cands : List String) : List String :=
  (scanCandidates env cands none).2

/-- Result dictionary returned by `fetch_video_url` (src/app.py lines
89-107): the `video_url` and `error` keys are present only on some paths,
modelled as `Option` fields; `success` and `message` are always present. -/
structure ScanResult where
  success : Bool
  video_url : Option String
  error : Option String
  message : String
deriving DecidableEq, Repr

/-- Environment a scan runs against. `launchOk` abstracts whether the code
outside the per-candidate `try` (browser/context/page setup and teardown)
raises; `launchErrMsg` is `str(e)` of that exception when it does;
`requestsFor` maps each navigated URL to the network request URLs observed
while the page loads. -/
structure BrowserEnv where
  launchOk : Bool
  launchErrMsg : String
  requestsFor : String → List String

end AnimeHindi

namespace AnimeHindi.AppPy

/-- The candidate list built by src/app.py lines 50-53: four candidate URLs
for each of the two slugs, in slug order. -/
def candidatesFor (animetitle season episode : String) : List String :=
  (make_slugs animetitle).flatMap (fun s => make_candidate_urls s season episode)

/-- Model of `fetch_video_url` in src/app.py lines 36-107. The browser
engine and user-agent string (Firefox with a spoofed Firefox UA here,
Chromium in src/video.py) do not affect the modelled logic and live inside
`BrowserEnv`. -/
def fetch_video_url (env : BrowserEnv) (animetitle season episode : String) : ScanResult :=
  if env.launchOk then
    match scanFound env.requestsFor (candidatesFor animetitle season episode) with
    | some f =>
      { success := true, video_url := some f, error := none,
        message := "Video URL found successfully" }
    | none =>
      { success := false, video_url := none,
        error := some "No video URL found. Try different season/episode numbers.",
        message := "No video URL found" }
  else
    { success := false, video_url := none,
      error := some ("An error occurred: " ++ env.launchErrMsg),
      message := "Failed to fetch video URL" }

end AnimeHindi.AppPy

namespace AnimeHindi

/-- Check that one list of characters occurs contiguously inside another
(Python's `needle in haystack` on strings). -/
def hasSub (needle hay : List Char) : Bool :=
  match hay with
  | [] => needle.isEmpty
  | _ :: t => (needle.isPrefixOf hay : Bool) || hasSub needle t

/-- Python `"needle" in haystack` for strings. -/
def strContains (needle hay : String) : Bool :=
  hasSub needle.toList hay.toList

example : strContains "No video URL found"
    "No video URL found. Try different season/episode numbers." = true := by decide

/-- Truthiness of an optional query parameter: Python's `not x` on
`request.args.get(...)` is true exactly when the parameter is absent
(`None`) or the empty string. -/
def truthy : Option String → Bool
  | none => false
  | some s => !(s == "")

/-- ASCII-digit run with single underscores allowed between digits, after
the first digit: the tail grammar accepted by Python `int()`. -/
def pyDigitsRest : List Char → Bool
  | [] => true
  | c :: cs =>
    if c == '_' then
      match cs with
      | [] => false
      | d :: t => d.isDigit && pyDigitsRest t
    else c.isDigit && pyDigitsRest cs

/-- Non-empty digit sequence with underscore separators. -/
def pyDigits : List Char → Bool
  | [] => false
  | c :: cs => c.isDigit && pyDigitsRest cs

/-- Whether Python `int(s)` succeeds (ASCII fragment: surrounding
whitespace, an optional sign, then decimal digits possibly separated by
single underscores; non-ASCII decimal digits are not modelled). -/
def pyIntParses (s : String) : Bool :=
  match pyStrip s.toList with
  | [] => false
  | c :: cs => if c == '+' || c == '-' then pyDigits cs else pyDigits (c :: cs)

example : pyIntParses "1" = true := by decide
example : pyIntParses "abc" = false := by decide
example : pyIntParses " -12 " = true := by decide
example : pyIntParses "1_0" = true := by decide
example : pyIntParses "1_" = false := by decide
example : pyIntParses "" = false := by decide
example : pyIntParses "+" = false := by decide

end AnimeHindi

namespace AnimeHindi.AppPy

/-- Body of the 400 response for missing parameters (src/app.py lines 129-133). -/
def missingParamsBody : ScanResult :=
  { success := false, video_url := none,
    error := some "Missing required parameters: title, season, episode",
    message := "Please provide title, season, and episode as query parameters" }

/-- Body of the 400 response for non-numeric season/episode (src/app.py lines 140-144). -/
def invalidNumberBody : ScanResult :=
  { success := false, video_url := none,
    error := some "Invalid season or episode number",
    message := "Season and episode must be valid numbers" }

/-- Model of the `/api/video` endpoint `get_video_url` in src/app.py lines
109-153: parameter presence check, integer validation, scan, and status
mapping (200 on success, else 404 when the error message contains
"No video URL found", else 500). Query parameters are `Option String`
(`request.args.get` yields `None` when absent). -/
def get_video_url (env : BrowserEnv) (title season episode : Option String) :
    Nat × ScanResult :=
  if !(truthy title) || !(truthy season) || !(truthy episode) then
    (400, missingParamsBody)
  else if !(pyIntParses (season.getD "") && pyIntParses (episode.getD "")) then
    (400, invalidNumberBody)
  else
    let result := fetch_video_url env (title.getD "") (season.getD "") (episode.getD "")
    if result.success then (200, result)
    else ((if strContains "No video URL found" (result.error.getD "") then 404 else 500), result)

end AnimeHindi.AppPy

namespace AnimeHindi.VideoPy

/-- The candidate list built by src/video.py lines 47-50. -/
def candidatesFor (animetitle season episode : String) : List String :=
  (make_slugs animetitle).flatMap (fun s => make_candidate_urls s season episode)

/-- Model of `fetch_video_url` in src/video.py lines 33-103 (textually
identical logic to the copy in src/app.py; only the browser engine and
user-agent differ, both abstracted into `BrowserEnv`). -/
def fetch_video_url (env : BrowserEnv) (animetitle season episode : String) : ScanResult :=
  if env.launchOk then
    match scanFound env.requestsFor (candidatesFor animetitle season episode) with
    | some f =>
      { success := true, video_url := some f, error := none,
        message := "Video URL found successfully" }
    | none =>
      { success := false, video_url := none,
        error := some "No video URL found. Try different season/episode numbers.",
        message := "No video URL found" }
  else
    { success := false, video_url := none,
      error := some ("An error occurred: " ++ env.launchErrMsg),
      message := "Failed to fetch video URL" }

end AnimeHindi.VideoPy

namespace AnimeHindi

/-! Helper lemmas about the scan loop. -/

theorem scanCandidates_isSome (env : String → List String) (cands : List String)
    (found : Option String) (h : found.isSome = true) :
    scanCandidates env cands found = (found, []) := by
  cases cands with
  | nil => rfl
  | cons u rest => simp [scanCandidates, h]

theorem scanCandidates_cons (env : String → List String) (u : String) (rest : List String)
    (found : Option String) (h : found.isSome = false) :
    scanCandidates env (u :: rest) found =
      ((scanCandidates env rest (observeRequests found (env u))).1,
        u :: (scanCandidates env rest (observeRequests found (env u))).2) := by
  simp [scanCandidates, h]

theorem scanCandidates_append (env : String → List String) (l1 l2 : List String)
    (found : Option String) :
    scanCandidates env (l1 ++ l2) found =
      ((scanCandidates env l2 (scanCandidates env l1 found).1).1,
        (scanCandidates env l1 found).2 ++ (scanCandidates env l2 (scanCandidates env l1 found).1).2) := by
  induction l1 generalizing found with
  | nil => simp [scanCandidates]
  | cons u rest ih =>
    by_cases h : found.isSome
    · rw [List.cons_append, scanCandidates_isSome env _ _ h, scanCandidates_isSome env _ _ h]
      rw [scanCandidates_isSome env _ _ h]
      simp
    · rw [Bool.not_eq_true] at h
      rw [List.cons_append, scanCandidates_cons env u (rest ++ l2) found h,
        scanCandidates_cons env u rest found h, ih]
      simp

theorem scanCandidates_none_visited (env : String → List String) (l : List String)
    (h : (scanCandidates env l none).1 = none) :
    (scanCandidates env l none).2 = l := by
  induction l with
  | nil => rfl
  | cons u rest ih =>
    rw [scanCandidates_cons env u rest none rfl] at h ⊢
    cases hov : observeRequests none (env u) with
    | some m =>
      rw [hov, scanCandidates_isSome env rest (some m) rfl] at h
      exact absurd h (by simp)
    | none =>
      rw [hov] at h
      exact congrArg (List.cons u) (ih h)

/-! Helper lemmas about characters and the slug pipeline. -/

theorem isUpper_iff (c : Char) : c.isUpper = true ↔ 65 ≤ c.toNat ∧ c.toNat ≤ 90 := by
  simp [Char.isUpper]
  exact Iff.rfl

theorem isUpper_toLower (c : Char) : (Char.toLower c).isUpper = false := by
  unfold Char.toLower
  by_cases h : 65 ≤ c.toNat ∧ c.toNat ≤ 90
  · rw [if_pos h]
    have hv : (c.toNat + 32).isValidChar := Or.inl (by omega)
    rw [Char.ofNat, dif_pos hv]
    have ht : (Char.ofNatAux (c.toNat + 32) hv).toNat = c.toNat + 32 := rfl
    rw [Bool.eq_false_iff]
    intro hu
    have h2 := (isUpper_iff _).mp hu
    rw [ht] at h2
    omega
  · rw [if_neg h, Bool.eq_false_iff]
    intro hu
    exact h ((isUpper_iff _).mp hu)

theorem mem_collapseRunsAux {p : Char → Bool} {rep : Char} :
    ∀ (b : Bool) (l : List Char) (c : Char), c ∈ collapseRunsAux p rep b l →
      c = rep ∨ (c ∈ l ∧ p c = false) := by
  intro b l
  induction l generalizing b with
  | nil => intro c hc; simp [collapseRunsAux] at hc
  | cons a t ih =>
    intro c hc
    simp only [collapseRunsAux] at hc
    by_cases hpa : p a = true
    · rw [if_pos hpa] at hc
      cases b with
      | true =>
        rw [if_pos rfl] at hc
        rcases ih true c hc with h | ⟨hm, hp⟩
        · exact Or.inl h
        · exact Or.inr ⟨List.mem_cons_of_mem a hm, hp⟩
      | false =>
        rw [if_neg (by simp)] at hc
        rcases List.mem_cons.mp hc with h | hc2
        · exact Or.inl h
        · rcases ih true c hc2 with h | ⟨hm, hp⟩
          · exact Or.inl h
          · exact Or.inr ⟨List.mem_cons_of_mem a hm, hp⟩
    · rw [if_neg hpa] at hc
      rcases List.mem_cons.mp hc with rfl | hc2
      · exact Or.inr ⟨List.mem_cons_self c t, Bool.not_eq_true _ |>.mp hpa⟩
      · rcases ih false c hc2 with h | ⟨hm, hp⟩
        · exact Or.inl h
        · exact Or.inr ⟨List.mem_cons_of_mem a hm, hp⟩

theorem mem_collapseRuns {p : Char → Bool} {rep : Char} {l : List Char} {c : Char}
    (h : c ∈ collapseRuns p rep l) : c = rep ∨ (c ∈ l ∧ p c = false) :=
  mem_collapseRunsAux false l c h

theorem mem_stripChar {x : Char} {l : List Char} {c : Char} (h : c ∈ stripChar x l) : c ∈ l :=
  List.dropWhile_subset _ (( List.rdropWhile_prefix _ _).subset h)

theorem stripChar_head_ne (x : Char) (l : List Char) (c : Char)
    (hc : (stripChar x l).head? = some c) : (c == x) = false := by
  have hne : stripChar x l ≠ [] := by
    intro hemp; rw [hemp] at hc; exact Option.noConfusion hc
  have hpre : stripChar x l <+: l.dropWhile (· == x) := List.rdropWhile_prefix _ _
  have hhead : (stripChar x l).head hne = c := by
    have := List.head?_eq_head hne
    rw [this] at hc
    exact Option.some.inj hc
  have h2 := hpre.head hne
  have h3 := List.head_dropWhile_not (· == x) l (hpre.ne_nil hne)
  rw [← h2, hhead] at h3
  exact h3

theorem stripChar_getLast_ne (x : Char) (l : List Char) (c : Char)
    (hc : (stripChar x l).getLast? = some c) : (c == x) = false := by
  have hne : stripChar x l ≠ [] := by
    intro hemp; rw [hemp] at hc; exact Option.noConfusion hc
  have h3 := List.rdropWhile_last_not (p := fun d => d == x) (l := l.dropWhile (· == x)) hne
  have hlast : (stripChar x l).getLast hne = c := by
    have := List.getLast?_eq_getLast (stripChar x l) hne
    rw [this] at hc
    exact Option.some.inj hc
  rw [Bool.not_eq_true] at h3
  rw [← hlast]
  exact h3

theorem slugBase_chars (l : List Char) (c : Char) (h : c ∈ slugBase l) :
    c = '-' ∨ (pyIsWord c = true ∧ pyIsSpace c = false ∧ ∃ a, c = Char.toLower a) := by
  have h4 : c ∈ collapseRuns (· == '-') '-'
      (collapseRuns pyIsSpace '-'
        (((pyStrip l).map Char.toLower).filter (fun d => pyIsWord d || pyIsSpace d || d == '-'))) :=
    mem_stripChar h
  rcases mem_collapseRuns h4 with rfl | ⟨h3, hnh⟩
  · exact Or.inl rfl
  rcases mem_collapseRuns h3 with rfl | ⟨h2, hns⟩
  · exact Or.inl rfl
  have hf := List.mem_filter.mp h2
  obtain ⟨hmem, hpred⟩ := hf
  have hword : pyIsWord c = true := by
    rcases Bool.or_eq_true _ _ |>.mp hpred with hp | hp
    · rcases Bool.or_eq_true _ _ |>.mp hp with hp2 | hp2
      · exact hp2
      · rw [hp2] at hns; exact absurd hns (by simp)
    · rw [hp] at hnh; exact absurd hnh (by simp)
  obtain ⟨a, _, ha⟩ := List.mem_map.mp hmem
  exact Or.inr ⟨hword, hns, a, ha.symm⟩

theorem slugBase_safe (l : List Char) (c : Char) (h : c ∈ slugBase l) :
    isAlwaysSafe c = true := by
  rcases slugBase_chars l c h with rfl | ⟨hw, _, _⟩
  · decide
  · unfold pyIsWord at hw
    unfold isAlwaysSafe
    rcases Bool.or_eq_true _ _ |>.mp hw with h2 | h2 <;> simp [h2]

theorem quotePlusChar_safe (c : Char) (h : isAlwaysSafe c = true) :
    quotePlusChar c = [c] := by
  have hs : (c == ' ') = false := by
    cases hcs : c == ' '
    · rfl
    · exfalso
      have hsp : c = ' ' := eq_of_beq hcs
      rw [hsp] at h
      exact absurd h (by decide)
  unfold quotePlusChar
  simp [hs, h]

theorem quote_plus_safe_id (l : List Char) (h : ∀ c ∈ l, isAlwaysSafe c = true) :
    quote_plus l = l := by
  induction l with
  | nil => rfl
  | cons a t ih =>
    have ha := quotePlusChar_safe a (h a (List.mem_cons_self a t))
    have ht : quote_plus t = t := ih (fun c hc => h c (List.mem_cons_of_mem a hc))
    show (a :: t).flatMap quotePlusChar = a :: t
    rw [List.flatMap_cons, ha]
    show a :: quote_plus t = a :: t
    rw [ht]

/-- The two slugs always coincide in the model: the hyphenated slug only
contains characters `quote_plus` leaves alone. -/
theorem make_slugs_pair (t : String) :
    AppPy.make_slugs t = [(slugBase t.toList).asString, (slugBase t.toList).asString] := by
  unfold AppPy.make_slugs
  rw [quote_plus_safe_id _ (slugBase_safe t.toList)]

/-- C5: `make_candidate_urls("naruto", "1", "5")` returns exactly 4 URL
strings, each containing "naruto" and "1x5", in exactly the order
`epi/<slug>-<s>x<e>/`, `episodes/<slug>-<s>x<e>/`, `epi/<slug>/<s>x<e>/`,
`episodes/<slug>/<s>x<e>/` (covering both path prefixes and both join
styles). -/
theorem claim_C5 :
    AppPy.make_candidate_urls "naruto" "1" "5" =
      [ "https://animedekho.co/epi/naruto-1x5/",
        "https://animedekho.co/episodes/naruto-1x5/",
        "https://animedekho.co/epi/naruto/1x5/",
        "https://animedekho.co/episodes/naruto/1x5/" ] ∧
    (AppPy.make_candidate_urls "naruto" "1" "5").length = 4 ∧
    (AppPy.make_candidate_urls "naruto" "1" "5").all
      (fun u => strContains "naruto" u && strContains "1x5" u) = true := by
  refine ⟨by decide, by decide, by decide⟩

/-- C6: for every title made of letters, digits, spaces and hyphens only,
the first element of `make_slugs(title)` has no uppercase character, does
not start or end with a hyphen, and contains no whitespace character. -/
theorem claim_C6 (t : String)
    (h : ∀ c ∈ t.toList, c.isAlpha = true ∨ c.isDigit = true ∨ c = ' ' ∨ c = '-') :
    (∀ c ∈ ((AppPy.make_slugs t).headD "").toList, c.isUpper = false) ∧
    (∀ c ∈ ((AppPy.make_slugs t).headD "").toList, pyIsSpace c = false) ∧
    ((AppPy.make_slugs t).headD "").toList.head? ≠ some '-' ∧
    ((AppPy.make_slugs t).headD "").toList.getLast? ≠ some '-' := by
  have hS : ((AppPy.make_slugs t).headD "").toList = slugBase t.toList := rfl
  rw [hS]
  refine ⟨?_, ?_, ?_, ?_⟩
  · intro c hc
    rcases slugBase_chars t.toList c hc with rfl | ⟨_, _, a, rfl⟩
    · decide
    · exact isUpper_toLower a
  · intro c hc
    rcases slugBase_chars t.toList c hc with rfl | ⟨_, hs, _⟩
    · decide
    · exact hs
  · intro hcon
    have h2 : (('-' : Char) == '-') = false := stripChar_head_ne '-' _ '-' hcon
    exact absurd h2 (by decide)
  · intro hcon
    have h2 : (('-' : Char) == '-') = false := stripChar_getLast_ne '-' _ '-' hcon
    exact absurd h2 (by decide)

/-- Witness for C6 at the concrete title "Naruto  Shippuden". -/
theorem claim_C6_witness :
    (∀ c ∈ ("Naruto  Shippuden").toList,
      c.isAlpha = true ∨ c.isDigit = true ∨ c = ' ' ∨ c = '-') ∧
    ((∀ c ∈ ((AppPy.make_slugs "Naruto  Shippuden").headD "").toList, c.isUpper = false) ∧
     (∀ c ∈ ((AppPy.make_slugs "Naruto  Shippuden").headD "").toList, pyIsSpace c = false) ∧
     ((AppPy.make_slugs "Naruto  Shippuden").headD "").toList.head? ≠ some '-' ∧
     ((AppPy.make_slugs "Naruto  Shippuden").headD "").toList.getLast? ≠ some '-') :=
  ⟨by decide, claim_C6 "Naruto  Shippuden" (by decide)⟩

/-- C8: the pure helpers duplicated across src/app.py and src/video.py are
extensionally equal: `make_slugs` agrees on every title and
`make_candidate_urls` agrees on every slug, season and episode. -/
theorem claim_C8 :
    (∀ t : String, AppPy.make_slugs t = VideoPy.make_slugs t) ∧
    (∀ sl se ep : String,
      AppPy.make_candidate_urls sl se ep = VideoPy.make_candidate_urls sl se ep) :=
  ⟨fun _ => rfl, fun _ _ _ => rfl⟩

/-- C9: for ASCII-only titles the two slugs of `make_slugs` are the same
string, so the 8 candidate URLs enumerated by `fetch_video_url` are one
4-element block repeated twice, with at most 4 distinct URLs. -/
theorem claim_C9 (t : String) (h : ∀ c ∈ t.toList, c.toNat < 128) :
    AppPy.make_slugs t = [(slugBase t.toList).asString, (slugBase t.toList).asString] ∧
    (∀ s e : String,
      AppPy.candidatesFor t s e =
        AppPy.make_candidate_urls (slugBase t.toList).asString s e ++
          AppPy.make_candidate_urls (slugBase t.toList).asString s e ∧
      (AppPy.candidatesFor t s e).toFinset.card ≤ 4) := by
  refine ⟨make_slugs_pair t, ?_⟩
  intro s e
  have hcand : AppPy.candidatesFor t s e =
      AppPy.make_candidate_urls (slugBase t.toList).asString s e ++
        AppPy.make_candidate_urls (slugBase t.toList).asString s e := by
    unfold AppPy.candidatesFor
    rw [make_slugs_pair t]
    simp
  refine ⟨hcand, ?_⟩
  rw [hcand, List.toFinset_append, Finset.union_self]
  calc (AppPy.make_candidate_urls (slugBase t.toList).asString s e).toFinset.card
      ≤ (AppPy.make_candidate_urls (slugBase t.toList).asString s e).length :=
        List.toFinset_card_le _
    _ = 4 := rfl

/-- Witness for C9 at the concrete title "naruto". -/
theorem claim_C9_witness :
    (∀ c ∈ ("naruto").toList, c.toNat < 128) ∧
    (AppPy.make_slugs "naruto" =
      [(slugBase ("naruto").toList).asString, (slugBase ("naruto").toList).asString] ∧
    (∀ s e : String,
      AppPy.candidatesFor "naruto" s e =
        AppPy.make_candidate_urls (slugBase ("naruto").toList).asString s e ++
          AppPy.make_candidate_urls (slugBase ("naruto").toList).asString s e ∧
      (AppPy.candidatesFor "naruto" s e).toFinset.card ≤ 4)) :=
  ⟨by decide, claim_C9 "naruto" (by decide)⟩

/-- C10: a present-but-empty `title` query parameter is handled exactly
like an absent one: 400 with the missing-parameters body, and the scan
environment is never consulted (the response is the same for every
environment). -/
theorem claim_C10 :
    ∀ (env env2 : BrowserEnv) (season episode : Option String),
      AppPy.get_video_url env (some "") season episode =
        AppPy.get_video_url env2 none season episode ∧
      (AppPy.get_video_url env (some "") season episode).1 = 400 ∧
      (AppPy.get_video_url env (some "") season episode).2 = AppPy.missingParamsBody := by
  intro env env2 season episode
  exact ⟨rfl, rfl, rfl⟩

/-- C7: when all three parameters are present and non-empty but season or
episode does not parse as an integer, `/api/video` answers 400 with the
invalid-number body, and the scan environment is never consulted (the
response is the same for every environment), so `fetch_video_url` is never
invoked. -/
theorem claim_C7 (env env2 : BrowserEnv) (t s e : String)
    (ht : t ≠ "") (hs : s ≠ "") (he : e ≠ "")
    (hp : pyIntParses s = false ∨ pyIntParses e = false) :
    AppPy.get_video_url env (some t) (some s) (some e) = (400, AppPy.invalidNumberBody) ∧
    AppPy.get_video_url env (some t) (some s) (some e) =
      AppPy.get_video_url env2 (some t) (some s) (some e) := by
  have ht' : (t == "") = false := beq_eq_false_iff_ne.mpr ht
  have hs' : (s == "") = false := beq_eq_false_iff_ne.mpr hs
  have he' : (e == "") = false := beq_eq_false_iff_ne.mpr he
  have hmain : ∀ envx : BrowserEnv,
      AppPy.get_video_url envx (some t) (some s) (some e) = (400, AppPy.invalidNumberBody) := by
    intro envx
    unfold AppPy.get_video_url
    simp only [truthy, Option.getD_some, ht', hs', he', Bool.not_false, Bool.or_self]
    rcases hp with hp | hp <;> simp [hp]
  exact ⟨hmain env, (hmain env).trans (hmain env2).symm⟩

/-- Witness for C7: `season=abc` with a scan environment that would find a
video URL if it were ever consulted. -/
theorem claim_C7_witness :
    pyIntParses "abc" = false ∧
    (AppPy.get_video_url ⟨true, "", fun _ => ["https://play.zephyrflick.top/video/zzz"]⟩
        (some "naruto") (some "abc") (some "5") = (400, AppPy.invalidNumberBody) ∧
      AppPy.get_video_url ⟨true, "", fun _ => ["https://play.zephyrflick.top/video/zzz"]⟩
          (some "naruto") (some "abc") (some "5") =
        AppPy.get_video_url ⟨false, "boom", fun _ => []⟩
          (some "naruto") (some "abc") (some "5")) :=
  ⟨by decide,
    claim_C7 ⟨true, "", fun _ => ["https://play.zephyrflick.top/video/zzz"]⟩
      ⟨false, "boom", fun _ => []⟩ "naruto" "abc" "5"
      (by decide) (by decide) (by decide) (Or.inl (by decide))⟩

/-- C4: every `ScanResult` produced by `fetch_video_url` (in either file)
is fully populated: success carries a video URL and no error, failure
carries an error and no video URL. -/
theorem claim_C4 :
    ∀ (env : BrowserEnv) (t s e : String),
      (((AppPy.fetch_video_url env t s e).success = true ∧
          (AppPy.fetch_video_url env t s e).video_url.isSome = true ∧
          (AppPy.fetch_video_url env t s e).error = none) ∨
        ((AppPy.fetch_video_url env t s e).success = false ∧
          (AppPy.fetch_video_url env t s e).error.isSome = true ∧
          (AppPy.fetch_video_url env t s e).video_url = none)) ∧
      (((VideoPy.fetch_video_url env t s e).success = true ∧
          (VideoPy.fetch_video_url env t s e).video_url.isSome = true ∧
          (VideoPy.fetch_video_url env t s e).error = none) ∨
        ((VideoPy.fetch_video_url env t s e).success = false ∧
          (VideoPy.fetch_video_url env t s e).error.isSome = true ∧
          (VideoPy.fetch_video_url env t s e).video_url = none)) := by
  intro env t s e
  constructor
  · unfold AppPy.fetch_video_url
    by_cases h : env.launchOk = true
    · rw [if_pos h]
      cases hf : scanFound env.requestsFor (AppPy.candidatesFor t s e) with
      | some f => left; simp
      | none => right; simp
    · rw [if_neg h]
      right; simp
  · unfold VideoPy.fetch_video_url
    by_cases h : env.launchOk = true
    · rw [if_pos h]
      cases hf : scanFound env.requestsFor (VideoPy.candidatesFor t s e) with
      | some f => left; simp
      | none => right; simp
    · rw [if_neg h]
      right; simp

/-- C2: a scan that completes with no captured match and no scan-level
exception yields success=false with an error containing "No video URL
found", and `/api/video` returns that body with status 404 (for parameters
that pass validation). -/
theorem claim_C2 (env : BrowserEnv) (t s e : String)
    (hok : env.launchOk = true)
    (hscan : scanFound env.requestsFor (AppPy.candidatesFor t s e) = none)
    (ht : t ≠ "") (hs : pyIntParses s = true) (he : pyIntParses e = true) :
    AppPy.fetch_video_url env t s e =
      { success := false, video_url := none,
        error := some "No video URL found. Try different season/episode numbers.",
        message := "No video URL found" } ∧
    strContains "No video URL found"
      ((AppPy.fetch_video_url env t s e).error.getD "") = true ∧
    AppPy.get_video_url env (some t) (some s) (some e) =
      (404, AppPy.fetch_video_url env t s e) := by
  have hfetch : AppPy.fetch_video_url env t s e =
      { success := false, video_url := none,
        error := some "No video URL found. Try different season/episode numbers.",
        message := "No video URL found" } := by
    unfold AppPy.fetch_video_url
    rw [if_pos hok, hscan]
  have hcontains : strContains "No video URL found"
      "No video URL found. Try different season/episode numbers." = true := by decide
  refine ⟨hfetch, by rw [hfetch]; exact hcontains, ?_⟩
  have ht' : (t == "") = false := beq_eq_false_iff_ne.mpr ht
  have hs' : (s == "") = false := by
    apply beq_eq_false_iff_ne.mpr
    intro hh
    rw [hh] at hs
    exact absurd hs (by decide)
  have he' : (e == "") = false := by
    apply beq_eq_false_iff_ne.mpr
    intro hh
    rw [hh] at he
    exact absurd he (by decide)
  unfold AppPy.get_video_url
  simp only [truthy, Option.getD_some, ht', hs', he', Bool.not_false, Bool.or_self, hs, he,
    Bool.and_self, Bool.not_true, Bool.false_eq_true, if_false, hfetch, hcontains, if_true]

/-- Witness for C2: a scan environment whose pages fire no matching request. -/
theorem claim_C2_witness :
    scanFound (fun _ => ["https://example.com/a.js"]) (AppPy.candidatesFor "naruto" "1" "5") =
        none ∧
    (AppPy.fetch_video_url ⟨true, "", fun _ => ["https://example.com/a.js"]⟩ "naruto" "1" "5" =
      { success := false, video_url := none,
        error := some "No video URL found. Try different season/episode numbers.",
        message := "No video URL found" } ∧
    strContains "No video URL found"
      ((AppPy.fetch_video_url ⟨true, "", fun _ => ["https://example.com/a.js"]⟩
          "naruto" "1" "5").error.getD "") = true ∧
    AppPy.get_video_url ⟨true, "", fun _ => ["https://example.com/a.js"]⟩
        (some "naruto") (some "1") (some "5") =
      (404, AppPy.fetch_video_url ⟨true, "", fun _ => ["https://example.com/a.js"]⟩
        "naruto" "1" "5")) :=
  ⟨by decide,
    claim_C2 ⟨true, "", fun _ => ["https://example.com/a.js"]⟩ "naruto" "1" "5"
      rfl (by decide) (by decide) (by decide) (by decide)⟩

/-- Counterexample to C3 as stated: when the scan-level exception message
itself contains "No video URL found", the endpoint's substring-based status
mapping (src/app.py line 153) yields 404, not 500, even though the failure
is an infrastructure error (launch failure), contradicting "never 404". -/
theorem claim_C3_counterexample :
    (AppPy.fetch_video_url ⟨false, "No video URL found", fun _ => []⟩
        "naruto" "1" "5").success = false ∧
    (AppPy.fetch_video_url ⟨false, "No video URL found", fun _ => []⟩
        "naruto" "1" "5").error = some "An error occurred: No video URL found" ∧
    (AppPy.get_video_url ⟨false, "No video URL found", fun _ => []⟩
        (some "naruto") (some "1") (some "5")).1 = 404 ∧
    ¬ (AppPy.get_video_url ⟨false, "No video URL found", fun _ => []⟩
        (some "naruto") (some "1") (some "5")).1 = 500 := by
  refine ⟨by decide, by decide, by decide, by decide⟩

/-- C3 as amended: a scan-level exception (launch failure) yields a
success=false result with the generic message, and the endpoint maps it to
500 — provided the resulting error string does not itself contain
"No video URL found" (otherwise the substring-based mapping yields 404). -/
theorem claim_C3 (env : BrowserEnv) (t s e : String)
    (hok : env.launchOk = false)
    (hmsg : strContains "No video URL found"
      ("An error occurred: " ++ env.launchErrMsg) = false)
    (ht : t ≠ "") (hs : pyIntParses s = true) (he : pyIntParses e = true) :
    AppPy.fetch_video_url env t s e =
      { success := false, video_url := none,
        error := some ("An error occurred: " ++ env.launchErrMsg),
        message := "Failed to fetch video URL" } ∧
    AppPy.get_video_url env (some t) (some s) (some e) =
      (500, AppPy.fetch_video_url env t s e) := by
  have hfetch : AppPy.fetch_video_url env t s e =
      { success := false, video_url := none,
        error := some ("An error occurred: " ++ env.launchErrMsg),
        message := "Failed to fetch video URL" } := by
    unfold AppPy.fetch_video_url
    rw [if_neg (by rw [hok]; exact Bool.false_ne_true)]
  refine ⟨hfetch, ?_⟩
  have ht' : (t == "") = false := beq_eq_false_iff_ne.mpr ht
  have hs' : (s == "") = false := by
    apply beq_eq_false_iff_ne.mpr
    intro hh
    rw [hh] at hs
    exact absurd hs (by decide)
  have he' : (e == "") = false := by
    apply beq_eq_false_iff_ne.mpr
    intro hh
    rw [hh] at he
    exact absurd he (by decide)
  unfold AppPy.get_video_url
  simp only [truthy, Option.getD_some, ht', hs', he', Bool.not_false, Bool.or_self, hs, he,
    Bool.and_self, Bool.not_true, Bool.false_eq_true, if_false, hfetch, hmsg, Option.getD_some]

/-- Witness for the amended C3: a launch failure with an ordinary
exception message. -/
theorem claim_C3_witness :
    strContains "No video URL found"
      ("An error occurred: " ++ "browser executable not found") = false ∧
    (AppPy.fetch_video_url ⟨false, "browser executable not found", fun _ => []⟩
        "naruto" "1" "5" =
      { success := false, video_url := none,
        error := some ("An error occurred: " ++ "browser executable not found"),
        message := "Failed to fetch video URL" } ∧
    AppPy.get_video_url ⟨false, "browser executable not found", fun _ => []⟩
        (some "naruto") (some "1") (some "5") =
      (500, AppPy.fetch_video_url ⟨false, "browser executable not found", fun _ => []⟩
        "naruto" "1" "5")) :=
  ⟨by decide,
    claim_C3 ⟨false, "browser executable not found", fun _ => []⟩ "naruto" "1" "5"
      rfl (by decide) (by decide) (by decide) (by decide)⟩

/-- C1: if the observer captures its match while candidate `k` of the
8-element candidate list is being processed (no match after the first `k`
candidates, a match after `k + 1`), the scanner navigates to exactly the
first `k + 1` candidates and to no candidate after `k`. -/
theorem claim_C1 (env : String → List String) (t s e : String) (k : Nat)
    (hk : k < (AppPy.candidatesFor t s e).length)
    (h0 : scanFound env ((AppPy.candidatesFor t s e).take k) = none)
    (h1 : (scanFound env ((AppPy.candidatesFor t s e).take (k + 1))).isSome = true) :
    (AppPy.candidatesFor t s e).length = 8 ∧
    scanVisited env (AppPy.candidatesFor t s e) =
      (AppPy.candidatesFor t s e).take (k + 1) := by
  refine ⟨rfl, ?_⟩
  set L := AppPy.candidatesFor t s e with hL
  have htake : L.take (k + 1) = L.take k ++ [L[k]] := by
    rw [List.take_succ, List.getElem?_eq_getElem hk]
    rfl
  have h0' : (scanCandidates env (L.take k) none).1 = none := h0
  have hvis0 := scanCandidates_none_visited env (L.take k) h0'
  have hpref : scanCandidates env (L.take k) none = (none, L.take k) := by
    cases hsc : scanCandidates env (L.take k) none with
    | mk a b =>
      rw [hsc] at h0' hvis0
      simp only at h0' hvis0
      rw [h0', hvis0]
  have hone : scanCandidates env [L[k]] none =
      (observeRequests none (env L[k]), [L[k]]) := by
    simp [scanCandidates]
  have htk1 : scanCandidates env (L.take (k + 1)) none =
      (observeRequests none (env L[k]), L.take (k + 1)) := by
    rw [htake, scanCandidates_append, hpref]
    simp only [hone]
  have hfound2 : (observeRequests none (env L[k])).isSome = true := by
    have h1' : (scanCandidates env (L.take (k + 1)) none).1.isSome = true := h1
    rw [htk1] at h1'
    exact h1'
  show (scanCandidates env L none).2 = L.take (k + 1)
  have hsplit : L = L.take (k + 1) ++ L.drop (k + 1) :=
    (List.take_append_drop (k + 1) L).symm
  calc (scanCandidates env L none).2
      = (scanCandidates env (L.take (k + 1) ++ L.drop (k + 1)) none).2 := by
        exact congrArg (fun l => (scanCandidates env l none).2) hsplit
    _ = L.take (k + 1) := by
        rw [scanCandidates_append, htk1, scanCandidates_isSome env _ _ hfound2]
        simp

/-- Witness for C1: the 3rd candidate (index 2) fires the matching request;
the scan visits exactly three candidates. -/
theorem claim_C1_witness :
    2 < (AppPy.candidatesFor "naruto" "1" "5").length ∧
    scanFound
        (fun u => if u = "https://animedekho.co/epi/naruto/1x5/"
          then ["https://play.zephyrflick.top/video/abc123"] else [])
        ((AppPy.candidatesFor "naruto" "1" "5").take 2) = none ∧
    (scanFound
        (fun u => if u = "https://animedekho.co/epi/naruto/1x5/"
          then ["https://play.zephyrflick.top/video/abc123"] else [])
        ((AppPy.candidatesFor "naruto" "1" "5").take 3)).isSome = true ∧
    ((AppPy.candidatesFor "naruto" "1" "5").length = 8 ∧
      scanVisited
          (fun u => if u = "https://animedekho.co/epi/naruto/1x5/"
            then ["https://play.zephyrflick.top/video/abc123"] else [])
          (AppPy.candidatesFor "naruto" "1" "5") =
        (AppPy.candidatesFor "naruto" "1" "5").take 3) :=
  ⟨by decide, by decide, by decide,
    claim_C1
      (fun u => if u = "https://animedekho.co/epi/naruto/1x5/"
        then ["https://play.zephyrflick.top/video/abc123"] else [])
      "naruto" "1" "5" 2 (by decide) (by decide) (by decide)⟩

end AnimeHindi
